import Mathlib

set_option autoImplicit false

namespace AutoNetOps

/-!
Entity model — shallow embedding of `src/classes.py`

Python objects are modelled with explicit object identities (`oid : Nat`):
`Site.devices` holds the identities of the member devices in insertion
order, and `Device.site` holds the identity of the site object it
references (or `none` for Python `None`). Note that `Device` inherits the
dataclass `__eq__` of `NbConnection` (via `NbDeviceMixin`), which compares
the `url`/`token` pair; no Device ever sets those, so ALL Device instances
compare equal to each other, and `list.remove` therefore deletes the first
element of the list regardless of which device was passed.

An operation that can raise is modelled by `OpResult`, which on a raise
also records the state of the mutated objects at the moment of the raise,
so that "raises without performing any state change" is expressible.
`EntityErr.typeMismatch` embeds the `TypeError` raised by the
`isinstance` guards (the spec's `TypeMismatchError` kind), and
`EntityErr.notInList` embeds the `ValueError` raised by Python's
`list.remove` when the element is absent.
-/

inductive EntityErr
  | typeMismatch
  | notInList
  deriving DecidableEq, Repr

inductive OpResult (σ : Type)
  | ok (s : σ)
  | raised (e : EntityErr) (s : σ)
  deriving DecidableEq, Repr

/-- The kind of the Python object passed as an argument, as tested by the
`isinstance` guards in `classes.py`. -/
inductive ArgKind
  | KSite
  | KDevice
  | KOther
  deriving DecidableEq, Repr

/-- Model of `Site` from `src/classes.py` (the fields the verified operations touch).
`devices` is the ordered `self.devices` list, holding device identities. -/
structure SiteT where
  oid : Nat
  name : String
  slug : String
  status : String
  devices : List Nat
  deriving DecidableEq, Repr

/-- Model of `Device` from `src/classes.py` (the fields the verified operations touch). -/
structure DeviceT where
  oid : Nat
  name : String
  site : Option Nat
  status : Option String
  serial : Option String
  mgmt_ip : Option String
  version : Option String
  deriving DecidableEq, Repr

/-- Model of `Site.__init__` (src/classes.py lines 12-23): `slugify` is an external
collaborator, so the derived slug is passed in. -/
def SiteT.init (oid : Nat) (name slug : String) : SiteT :=
  { oid := oid, name := name, slug := slug, status := "active", devices := [] }

/-- Model of `Device.__init__` (src/classes.py lines 55-70), statement by statement:
`self.status` is first assigned `"active"` (line 60) and later reassigned
`None` (line 65). -/
def DeviceT.init (oid : Nat) (name : String) : DeviceT :=
  let d0 : DeviceT :=
    { oid := oid, name := name, site := none, status := some "active",
      serial := none, mgmt_ip := none, version := none }
  { d0 with status := none }

/-- Model of `Site.device_add` (src/classes.py lines 31-35): appends the device when
the argument is a `Device` instance, else raises `TypeError` with the site
unchanged. -/
def SiteT.device_add (s : SiteT) (k : ArgKind) (devOid : Nat) : OpResult SiteT :=
  match k with
  | .KDevice => .ok { s with devices := s.devices ++ [devOid] }
  | _ => .raised .typeMismatch s

/-- Model of `Site.device_remove` (src/classes.py lines 37-41):
`list.remove` deletes the first list element that compares `==` to the
argument. `Device` inherits the dataclass `__eq__` of `NbConnection`
comparing `(url, token)`, both always unset, so every Device compares
equal to every other: the call deletes the FIRST element of the
collection, whichever device was passed (hence `devOid` is not consulted),
and raises `ValueError` only when the collection is empty. A non-`Device`
argument raises `TypeError`. The device's `site` attribute is never
touched. -/
def SiteT.device_remove (s : SiteT) (k : ArgKind) (devOid : Nat) : OpResult SiteT :=
  match k with
  | .KDevice =>
      match s.devices with
      | [] => .raised .notInList s
      | _ :: rest => .ok { s with devices := rest }
  | _ => .raised .typeMismatch s

/-- Model of `Device.join_site` (src/classes.py lines 107-112): when the argument is a
`Site`, sets `self.site` to it and then calls `site.device_add(self)`;
otherwise raises `TypeError` before any mutation. -/
def DeviceT.join_site (d : DeviceT) (k : ArgKind) (s : SiteT) :
    OpResult (DeviceT × SiteT) :=
  match k with
  | .KSite =>
      let d1 := { d with site := some s.oid }
      match s.device_add .KDevice d1.oid with
      | .ok s1 => .ok (d1, s1)
      | .raised e s1 => .raised e (d1, s1)
  | _ => .raised .typeMismatch (d, s)

/-- Model of `d.join_site(s)` followed by `s.device_remove(d)`, both with correctly
typed arguments — the round trip of claim C1. -/
def joinThenRemove (d : DeviceT) (s : SiteT) : OpResult (DeviceT × SiteT) :=
  match d.join_site .KSite s with
  | .ok ds =>
      match ds.2.device_remove .KDevice ds.1.oid with
      | .ok s2 => .ok (ds.1, s2)
      | .raised e s2 => .raised e (ds.1, s2)
  | .raised e ds => .raised e ds

/-- The site's device list after the C1 round trip (`none` if it raised). -/
def siteDevicesAfterRoundTrip (d : DeviceT) (s : SiteT) : Option (List Nat) :=
  match joinThenRemove d s with
  | .ok ds => some ds.2.devices
  | .raised _ _ => none

/-- The device's site reference after the C1 round trip (`none` if it raised). -/
def deviceSiteAfterRoundTrip (d : DeviceT) (s : SiteT) : Option (Option Nat) :=
  match joinThenRemove d s with
  | .ok ds => some ds.1.site
  | .raised _ _ => none

/-- C1 (counterexample): for Device `leaf1` (oid 1) and Site `lab-a` (oid 0),
`join_site` followed by `device_remove` does NOT leave the device's site
reference cleared — `device_remove` never touches `device.site`, so it still
points at the site. -/
theorem C1_roundTrip_counterexample :
    ¬ (siteDevicesAfterRoundTrip (DeviceT.init 1 "leaf1") (SiteT.init 0 "lab-a" "lab-a") =
         some (SiteT.init 0 "lab-a" "lab-a").devices ∧
       deviceSiteAfterRoundTrip (DeviceT.init 1 "leaf1") (SiteT.init 0 "lab-a" "lab-a") =
         some none) := by
  decide

/-- C1 (amended): `join_site` followed by `device_remove` restores the
site's device collection only when that collection was empty before the
join, and even then leaves the device's site reference pointing at the
site (not cleared back to `None`). When the collection already held
devices, `list.remove` — under the inherited dataclass `__eq__`, which
makes all Devices compare equal — deletes the previous FIRST member and
keeps the newly joined device, so the collection is not restored either. -/
theorem C1_roundTrip_amended (d : DeviceT) (s : SiteT) :
    (s.devices = [] →
       siteDevicesAfterRoundTrip d s = some s.devices ∧
       deviceSiteAfterRoundTrip d s = some (some s.oid)) ∧
    (∀ e rest, s.devices = e :: rest →
       siteDevicesAfterRoundTrip d s = some (rest ++ [d.oid]) ∧
       deviceSiteAfterRoundTrip d s = some (some s.oid)) := by
  constructor
  · intro h
    constructor <;>
      simp [siteDevicesAfterRoundTrip, deviceSiteAfterRoundTrip, joinThenRemove,
        DeviceT.join_site, SiteT.device_add, SiteT.device_remove, h]
  · intro e rest h
    constructor <;>
      simp [siteDevicesAfterRoundTrip, deviceSiteAfterRoundTrip, joinThenRemove,
        DeviceT.join_site, SiteT.device_add, SiteT.device_remove, h]

/-- C1 (witness for the amended theorem): with an empty `lab-a` the
collection is restored and the site reference survives; with `lab-a`
already holding device 1, joining device 2 and removing it deletes
device 1 and keeps device 2. -/
theorem C1_roundTrip_amended_witness :
    (siteDevicesAfterRoundTrip (DeviceT.init 1 "leaf1") (SiteT.init 0 "lab-a" "lab-a") =
       some (SiteT.init 0 "lab-a" "lab-a").devices ∧
     deviceSiteAfterRoundTrip (DeviceT.init 1 "leaf1") (SiteT.init 0 "lab-a" "lab-a") =
       some (some 0)) ∧
    (siteDevicesAfterRoundTrip (DeviceT.init 2 "leaf2")
        { SiteT.init 0 "lab-a" "lab-a" with devices := [1] } = some [2] ∧
     deviceSiteAfterRoundTrip (DeviceT.init 2 "leaf2")
        { SiteT.init 0 "lab-a" "lab-a" with devices := [1] } = some (some 0)) :=
  ⟨(C1_roundTrip_amended (DeviceT.init 1 "leaf1") (SiteT.init 0 "lab-a" "lab-a")).1 rfl,
   (C1_roundTrip_amended (DeviceT.init 2 "leaf2")
      { SiteT.init 0 "lab-a" "lab-a" with devices := [1] }).2 1 [] rfl⟩

/-- C8: `join_site`, `device_add` and `device_remove` raise the
type-mismatch error (Python `TypeError`, the spec's `TypeMismatchError`
kind) whenever the argument is not of the expected entity kind, returning
the state unchanged; with a `Site` argument, `join_site` sets the device's
site reference and appends the device to the site's collection. -/
theorem C8_type_guards (d : DeviceT) (s : SiteT) (o : Nat) :
    (∀ k, k ≠ ArgKind.KSite → d.join_site k s = .raised .typeMismatch (d, s)) ∧
    (∀ k, k ≠ ArgKind.KDevice → s.device_add k o = .raised .typeMismatch s) ∧
    (∀ k, k ≠ ArgKind.KDevice → s.device_remove k o = .raised .typeMismatch s) ∧
    d.join_site .KSite s =
      .ok ({ d with site := some s.oid }, { s with devices := s.devices ++ [d.oid] }) := by
  refine ⟨?_, ?_, ?_, rfl⟩ <;>
    · intro k hk
      cases k <;> simp_all [DeviceT.join_site, SiteT.device_add, SiteT.device_remove]

/-- C8 (witness): the three guarded operations at concrete wrongly-typed
arguments all raise the type-mismatch error with the state unchanged. -/
theorem C8_type_guards_witness :
    (DeviceT.init 1 "leaf1").join_site .KOther (SiteT.init 0 "lab-a" "lab-a") =
      .raised .typeMismatch (DeviceT.init 1 "leaf1", SiteT.init 0 "lab-a" "lab-a") ∧
    (SiteT.init 0 "lab-a" "lab-a").device_add .KOther 7 =
      .raised .typeMismatch (SiteT.init 0 "lab-a" "lab-a") ∧
    (SiteT.init 0 "lab-a" "lab-a").device_remove .KOther 7 =
      .raised .typeMismatch (SiteT.init 0 "lab-a" "lab-a") := by
  have h := C8_type_guards (DeviceT.init 1 "leaf1") (SiteT.init 0 "lab-a" "lab-a") 7
  exact ⟨h.1 .KOther (by decide), h.2.1 .KOther (by decide), h.2.2.1 .KOther (by decide)⟩

/-- C10: a freshly constructed `Device(name)` has `status = None` — the
initial `"active"` assignment in `__init__` is overwritten by the later
assignment to `None`, so a new Device does not default to the active
status. -/
theorem C10_fresh_device_status_none (oid : Nat) (name : String) :
    (DeviceT.init oid name).status = none := rfl

/-- C10 (witness): a concrete freshly constructed Device. -/
theorem C10_fresh_device_status_none_witness :
    (DeviceT.init 1 "leaf1").status = none :=
  C10_fresh_device_status_none 1 "leaf1"

/-!
Collector model — shallow embedding of `src/connector.py`

The external transports (napalm / netmiko libraries) are collaborators:
their behaviour at each call site is a parameter (`TCall`, `Bool` success
flags). Errors mirror the source: `unsupportedDriver` embeds the
`ValueError` raised by `NetworkCollector.__init__` (the spec's
`UnsupportedDriverError` kind), `connectionError` the exception re-raised
by `connect`, `typeError` a Python `TypeError`, and `transportError` any
other exception escaping a transport call.
-/

inductive ConnErr
  | unsupportedDriver
  | connectionError
  | typeError
  | transportError
  deriving DecidableEq, Repr

inductive CResult (σ : Type)
  | ok (s : σ)
  | raised (e : ConnErr) (s : σ)
  deriving DecidableEq, Repr

/-- The outcome of a single call into an external transport: it returns a
value or raises. -/
inductive TCall (α : Type)
  | returns (a : α)
  | raises
  deriving DecidableEq, Repr

/-- A facts mapping (`Dict[str, Any]` holding the normalized facts). -/
abbrev Facts := List (String × String)

/-- The napalm device object held in `NapalmDriver.device` once constructed. -/
structure NapalmDevice where
  hostname : String
  username : String
  password : String
  opened : Bool
  deriving DecidableEq, Repr

/-- Model of `NapalmDriver.__init__` state (src/connector.py lines 47-49). -/
structure NapalmDriverSt where
  driver : Option String
  device : Option NapalmDevice
  deriving DecidableEq, Repr

/-- The netmiko connection object held in `NetmikoDriver.conn`. -/
structure NetmikoConn where
  host : String
  device_type : String
  deriving DecidableEq, Repr

/-- Model of `NetmikoDriver.__init__` state (src/connector.py lines 108-109). -/
structure NetmikoDriverSt where
  conn : Option NetmikoConn
  deriving DecidableEq, Repr

/-- Model of `NapalmDriver._netmiko_device_type_to_driver` (src/connector.py
lines 51-61). -/
def netmikoDeviceTypeToDriver (device_type : String) : String :=
  match device_type with
  | "cisco_ios" => "ios"
  | "cisco_nxos" => "nxos_ssh"
  | "arista_eos" => "eos"
  | "juniper" => "junos"
  | "juniper_junos" => "junos"
  | _ => device_type

/-- Model of `NapalmDriver.connect` (src/connector.py lines 63-74): `self.device` is
assigned the constructed driver object BEFORE `open()` is called, so a
failure inside `open()` leaves `self.device` set (to an unopened device);
any failure is logged and re-raised. `getDriverOk` stands for
`napalm.get_network_driver` and the driver construction succeeding, and
`openOk` for `self.device.open()` succeeding. -/
def NapalmDriver.connect (st : NapalmDriverSt) (host user pw dtype : String)
    (getDriverOk openOk : Bool) : CResult NapalmDriverSt :=
  if getDriverOk then
    let st1 : NapalmDriverSt :=
      { st with device := some { hostname := host, username := user, password := pw,
                                 opened := false } }
    if openOk then
      .ok { st1 with device := some { hostname := host, username := user, password := pw,
                                      opened := true } }
    else .raised .connectionError st1
  else .raised .connectionError st

/-- Model of `NetmikoDriver.connect` (src/connector.py lines 111-121): the single
assignment `self.conn = netmiko.ConnectHandler(...)` either completes or
raises with `self.conn` unchanged. -/
def NetmikoDriver.connect (st : NetmikoDriverSt) (host user pw dtype : String)
    (handlerOk : Bool) : CResult NetmikoDriverSt :=
  if handlerOk then .ok { st with conn := some { host := host, device_type := dtype } }
  else .raised .connectionError st

/-- Model of `NapalmDriver.close` (src/connector.py lines 99-102): invokes
`self.device.close()` only when `self.device` is set; the returned `Bool`
records whether the underlying close was invoked. `closeRaises` stands for
the external `device.close()` raising. -/
def NapalmDriver.close (st : NapalmDriverSt) (closeRaises : Bool) :
    CResult (NapalmDriverSt × Bool) :=
  match st.device with
  | none => .ok (st, false)
  | some _ =>
      if closeRaises then .raised .transportError (st, true) else .ok (st, true)

/-- Model of `NetmikoDriver.close` (src/connector.py lines 146-149): invokes
`self.conn.disconnect()` only when `self.conn` is set. -/
def NetmikoDriver.close (st : NetmikoDriverSt) (closeRaises : Bool) :
    CResult (NetmikoDriverSt × Bool) :=
  match st.conn with
  | none => .ok (st, false)
  | some _ =>
      if closeRaises then .raised .transportError (st, true) else .ok (st, true)

/-- Model of `NapalmDriver.get_facts` (src/connector.py lines 76-81): any exception
from the transport call (including the `AttributeError` from an unset
`self.device`) is caught, logged, and turned into an empty mapping. -/
def NapalmDriver.get_facts (st : NapalmDriverSt) (call : TCall Facts) : Facts :=
  match st.device with
  | none => []
  | some _ =>
      match call with
      | .returns f => f
      | .raises => []

/-- The value `send_command("show version", use_textfsm=True)` produces:
textfsm-parsed output is a list of fact mappings, unparsed output a raw
string. -/
inductive NetmikoOut
  | listOut (l : List Facts)
  | strOut (s : String)
  deriving DecidableEq, Repr

/-- Model of `NetmikoDriver.get_facts` (src/connector.py lines 123-129): returns
`output[0]` when the command output is a non-empty list, else an empty
mapping; any exception is caught and turned into an empty mapping. -/
def NetmikoDriver.get_facts (st : NetmikoDriverSt) (call : TCall NetmikoOut) : Facts :=
  match st.conn with
  | none => []
  | some _ =>
      match call with
      | .returns (.listOut (h :: _)) => h
      | .returns (.listOut []) => []
      | .returns (.strOut _) => []
      | .raises => []

/-- The registered driver variants (`NetworkCollector.LIBRARY`,
src/connector.py lines 155-162). -/
inductive DriverKind
  | napalm
  | netmiko
  deriving DecidableEq, Repr

/-- The driver instance held by a collector. -/
inductive DriverSt
  | napalmSt (st : NapalmDriverSt)
  | netmikoSt (st : NetmikoDriverSt)
  deriving DecidableEq, Repr

/-- A freshly constructed driver of the given kind (`self.LIBRARY[library]()`,
src/connector.py line 186): no session is established. -/
def DriverKind.freshSt : DriverKind → DriverSt
  | .napalm => .napalmSt { driver := none, device := none }
  | .netmiko => .netmikoSt { conn := none }

/-- Model of `NetworkCollector.LIBRARY` as a name-to-variant registry. -/
def LIBRARY : List (String × DriverKind) := [("napalm", .napalm), ("netmiko", .netmiko)]

/-- Model of `NetworkCollector` state (src/connector.py lines 164-190). -/
structure NetworkCollector where
  driver : DriverSt
  host : String
  username : String
  password : String
  device_type : String
  deriving DecidableEq, Repr

/-- Model of `NetworkCollector.__init__` (src/connector.py lines 164-190): an
unregistered library name raises `ValueError` (the spec's
`UnsupportedDriverError` kind) before the driver is even instantiated;
a registered name selects the corresponding variant, freshly constructed,
with no network call performed. -/
def NetworkCollector.init (host user pw dtype lib : String) :
    Except ConnErr NetworkCollector :=
  match LIBRARY.lookup lib with
  | none => .error .unsupportedDriver
  | some k =>
      .ok { driver := k.freshSt, host := host, username := user, password := pw,
            device_type := dtype }

/-- Model of `NetworkCollector.close` (src/connector.py lines 217-219): pass-through
to the active driver's `close`. -/
def NetworkCollector.close (c : NetworkCollector) (closeRaises : Bool) :
    CResult (NetworkCollector × Bool) :=
  match c.driver with
  | .napalmSt st =>
      match NapalmDriver.close st closeRaises with
      | .ok (st1, b) => .ok ({ c with driver := .napalmSt st1 }, b)
      | .raised e (st1, b) => .raised e ({ c with driver := .napalmSt st1 }, b)
  | .netmikoSt st =>
      match NetmikoDriver.close st closeRaises with
      | .ok (st1, b) => .ok ({ c with driver := .netmikoSt st1 }, b)
      | .raised e (st1, b) => .raised e ({ c with driver := .netmikoSt st1 }, b)

/-- Model of `NetworkCollector.get_facts` (src/connector.py lines 205-207):
pass-through to the active driver's `get_facts`. -/
def NetworkCollector.get_facts (c : NetworkCollector) (napCall : TCall Facts)
    (netCall : TCall NetmikoOut) : Facts :=
  match c.driver with
  | .napalmSt st => NapalmDriver.get_facts st napCall
  | .netmikoSt st => NetmikoDriver.get_facts st netCall

/-- True when the driver's session handle is unset (`self.device` /
`self.conn` is `None`). -/
def DriverSt.sessionUnset : DriverSt → Bool
  | .napalmSt st => st.device == none
  | .netmikoSt st => st.conn == none

/-- Number of parameters besides `self` in the source's
`NetworkCollector.__exit__` (src/connector.py line 197: `def __exit__(self)`). -/
def exitExtraParamCount : Nat := 0

/-- Python's with-statement invokes `__exit__` with three positional
arguments: `exc_type`, `exc_value`, `traceback`. -/
def withStmtExitArgCount : Nat := 3

/-- Whether the body of the `with` block completes normally or raises. -/
inductive BodyOutcome
  | normal
  | raising
  deriving DecidableEq, Repr

/-- Trace of one execution of `with NetworkCollector(...) as conn: body`. -/
structure WithRun where
  connectCalled : Bool
  connected : Bool
  bodyRan : Bool
  closeCalled : Bool
  outcome : Option ConnErr
  deriving DecidableEq, Repr

/-- Execution of a `with` block over a `NetworkCollector`
(src/connector.py lines 192-199), following Python's context-manager
protocol: `__enter__` calls `self.connect()` (a failure there propagates
and the body never runs); after the body, Python calls
`__exit__(mgr, exc_type, exc_value, traceback)`. When the number of
arguments the protocol passes differs from the number the method's
signature accepts, that call itself raises `TypeError` and the dispatch to
`self.close()` inside `__exit__` is never reached. -/
def runWithCollector (connectOk : Bool) (body : BodyOutcome) : WithRun :=
  if connectOk then
    if withStmtExitArgCount = exitExtraParamCount then
      { connectCalled := true, connected := true, bodyRan := true, closeCalled := true,
        outcome := match body with | .normal => none | .raising => some .transportError }
    else
      { connectCalled := true, connected := true, bodyRan := true, closeCalled := false,
        outcome := some .typeError }
  else
    { connectCalled := true, connected := false, bodyRan := false, closeCalled := false,
      outcome := some .connectionError }

/-- C2 (code evaluated at the failing input): entering the scope does call
`connect`, but on EVERY exit path — body completing normally or raising —
the `__exit__` call fails with `TypeError` because the source defines
`__exit__(self)` with no exception parameters while the protocol passes
three, so `close` is never called. -/
theorem C2_exit_never_calls_close :
    (∀ body, (runWithCollector true body).closeCalled = false ∧
             (runWithCollector true body).outcome = some ConnErr.typeError) ∧
    (runWithCollector true .normal).connectCalled = true ∧
    withStmtExitArgCount ≠ exitExtraParamCount := by
  refine ⟨fun body => ?_, by decide, by decide⟩
  cases body <;> exact ⟨rfl, rfl⟩

/-- C2 (witness): the normal-completion exit path at a concrete run. -/
theorem C2_exit_never_calls_close_witness :
    (runWithCollector true BodyOutcome.normal).closeCalled = false ∧
    (runWithCollector true BodyOutcome.normal).outcome = some ConnErr.typeError :=
  C2_exit_never_calls_close.1 BodyOutcome.normal

/-- C6: constructing a `NetworkCollector` with a library name outside the
registry fails with the unsupported-driver error (the `ValueError` of
src/connector.py line 183, the spec's `UnsupportedDriverError` kind) while
the driver is never instantiated and no network call is made; each
registered name yields a collector holding a fresh driver of the
corresponding variant with no session established. -/
theorem C6_registry_guard (host user pw dtype lib : String)
    (h1 : lib ≠ "napalm") (h2 : lib ≠ "netmiko") :
    NetworkCollector.init host user pw dtype lib = .error .unsupportedDriver ∧
    NetworkCollector.init host user pw dtype "napalm" =
      .ok { driver := .napalmSt { driver := none, device := none }, host := host,
            username := user, password := pw, device_type := dtype } ∧
    NetworkCollector.init host user pw dtype "netmiko" =
      .ok { driver := .netmikoSt { conn := none }, host := host,
            username := user, password := pw, device_type := dtype } ∧
    (∀ c, NetworkCollector.init host user pw dtype lib ≠ .ok c) := by
  have e1 : (lib == "napalm") = false := beq_eq_false_iff_ne.mpr h1
  have e2 : (lib == "netmiko") = false := beq_eq_false_iff_ne.mpr h2
  refine ⟨?_, rfl, rfl, ?_⟩ <;>
    simp [NetworkCollector.init, LIBRARY, List.lookup, e1, e2]

/-- C6 (witness): the unregistered name `"scrapli"` is rejected and the two
registered names are accepted. -/
theorem C6_registry_guard_witness :
    NetworkCollector.init "h" "u" "p" "cisco_ios" "scrapli" =
      .error .unsupportedDriver ∧
    NetworkCollector.init "h" "u" "p" "cisco_ios" "napalm" =
      .ok { driver := .napalmSt { driver := none, device := none }, host := "h",
            username := "u", password := "p", device_type := "cisco_ios" } ∧
    NetworkCollector.init "h" "u" "p" "cisco_ios" "netmiko" =
      .ok { driver := .netmikoSt { conn := none }, host := "h",
            username := "u", password := "p", device_type := "cisco_ios" } := by
  have h := C6_registry_guard "h" "u" "p" "cisco_ios" "scrapli" (by decide) (by decide)
  exact ⟨h.1, h.2.1, h.2.2.1⟩

/-- C7: a transport that raises during fact retrieval yields an empty
mapping from both driver variants and from the Collector's pass-through
`get_facts`; the exception is not propagated (the functions are total and
return a plain value). -/
theorem C7_get_facts_failsoft :
    (∀ st : NapalmDriverSt, NapalmDriver.get_facts st .raises = []) ∧
    (∀ st : NetmikoDriverSt, NetmikoDriver.get_facts st .raises = []) ∧
    (∀ c : NetworkCollector, c.get_facts .raises .raises = []) := by
  refine ⟨fun st => ?_, fun st => ?_, fun c => ?_⟩
  · rcases st with ⟨d, dev⟩; cases dev <;> rfl
  · rcases st with ⟨conn⟩; cases conn <;> rfl
  · rcases c with ⟨drv, h, u, p, t⟩
    cases drv with
    | napalmSt st => rcases st with ⟨d, dev⟩; cases dev <;> rfl
    | netmikoSt st => rcases st with ⟨conn⟩; cases conn <;> rfl

/-- C7 (witness): a concrete connected netmiko collector whose transport
raises still yields an empty mapping. -/
theorem C7_get_facts_failsoft_witness :
    NetworkCollector.get_facts
        { driver := .netmikoSt { conn := some { host := "h", device_type := "cisco_ios" } },
          host := "h", username := "u", password := "p", device_type := "cisco_ios" }
        .raises .raises = [] :=
  C7_get_facts_failsoft.2.2
    { driver := .netmikoSt { conn := some { host := "h", device_type := "cisco_ios" } },
      host := "h", username := "u", password := "p", device_type := "cisco_ios" }

/-- The napalm driver state after a fresh `connect("h","u","p",...)` fails
inside `device.open()`: the device object was already assigned. -/
def napalmFailedOpenSt : NapalmDriverSt :=
  { driver := none,
    device := some { hostname := "h", username := "u", password := "p", opened := false } }

/-- C9 (counterexample): for the napalm variant, a `connect` that fails
during `open()` (reaching the host fails, the most common failure) leaves
the session handle SET — refuting "the session handle is still unset" after
a connect that never succeeded — and `close` in that state is not a no-op:
it invokes the underlying `device.close()`, and raises if that call
raises. -/
theorem C9_close_counterexample :
    NapalmDriver.connect { driver := none, device := none } "h" "u" "p" "cisco_ios"
        true false = .raised .connectionError napalmFailedOpenSt ∧
    napalmFailedOpenSt.device ≠ none ∧
    NapalmDriver.close napalmFailedOpenSt false = .ok (napalmFailedOpenSt, true) ∧
    NapalmDriver.close napalmFailedOpenSt true =
      .raised .transportError (napalmFailedOpenSt, true) := by
  decide

/-- C9 (amended): whenever the session handle is unset — in particular when
`connect` was never called, since construction always yields an unset
handle, and for the netmiko variant also after a failed `connect`, which
leaves the state unchanged — `close` does not raise and is a no-op that
never touches the underlying transport; but a napalm `connect` failing
inside `open()` leaves the handle set (see the counterexample). -/
theorem C9_close_amended :
    (∀ (c : NetworkCollector) (r : Bool), c.driver.sessionUnset = true →
        NetworkCollector.close c r = .ok (c, false)) ∧
    (∀ host user pw dtype lib c, NetworkCollector.init host user pw dtype lib = .ok c →
        c.driver.sessionUnset = true) ∧
    (∀ (st : NetmikoDriverSt) (host user pw dtype : String),
        NetmikoDriver.connect st host user pw dtype false =
          .raised .connectionError st) := by
  refine ⟨fun c r h => ?_, fun host user pw dtype lib c h => ?_, fun st h u p t => rfl⟩
  · rcases c with ⟨drv, ch, cu, cp, ct⟩
    cases drv with
    | napalmSt st =>
        rcases st with ⟨d, dev⟩
        cases dev with
        | none => rfl
        | some dv => simp [DriverSt.sessionUnset] at h
    | netmikoSt st =>
        rcases st with ⟨conn⟩
        cases conn with
        | none => rfl
        | some cn => simp [DriverSt.sessionUnset] at h
  · unfold NetworkCollector.init at h
    rcases hl : LIBRARY.lookup lib with _ | k
    · rw [hl] at h; cases h
    · rw [hl] at h
      cases h
      cases k <;> rfl

/-- C9 (witness for the amended theorem): a freshly constructed netmiko
collector has an unset session handle and closing it is a no-op that does
not raise. -/
theorem C9_close_amended_witness :
    NetworkCollector.close
        { driver := .netmikoSt { conn := none }, host := "h", username := "u",
          password := "p", device_type := "cisco_ios" } true =
      .ok ({ driver := .netmikoSt { conn := none }, host := "h", username := "u",
             password := "p", device_type := "cisco_ios" }, false) :=
  C9_close_amended.1
    { driver := .netmikoSt { conn := none }, host := "h", username := "u",
      password := "p", device_type := "cisco_ios" } true (by decide)

/-!
Reconciler model — shallow embedding of `src/netbox_classes.py`

The inventory service is the external collaborator the spec's testable
properties mock: `MockNb` holds the remote records, the id the service
will generate next, the log of issued create/update calls, and optional
failure injections standing for the three exception categories the
`except` clauses of `NbDeviceMixin.nb_create` distinguish
(`pynetbox.core.query.RequestError`, `...ValidationError`, and any other
`Exception`). Dict payloads are modelled as assoc lists in insertion
order. A pynetbox record's nested objects (`platform`, `primary_ip`) are
modelled by their inventory ids, mirroring how the source reads them
(`nb_device.platform.id`).
-/

inductive NbErr
  | requestError
  | validationError
  | unexpected
  deriving DecidableEq, Repr

/-- A payload value (string field or numeric inventory id). -/
inductive PVal
  | pstr (s : String)
  | pnat (n : Nat)
  deriving DecidableEq, Repr

/-- A remote device record held by the inventory service. -/
structure NbRec where
  id : Nat
  name : String
  siteName : Option String
  status : Option String
  serial : Option String
  platform : Option Nat
  primary_ip : Option Nat
  deriving DecidableEq, Repr

/-- The `self.site` reference as `nb_create` reads it (`self.site.name`,
`self.site.id`). -/
structure RSiteRef where
  name : String
  id : Option Nat
  deriving DecidableEq, Repr

/-- The local Device entity as `NbDeviceMixin.nb_create` reads and writes
it: dict-valued descriptors (`self.device_type["id"]`, `self.platform["id"]`,
`self.primary_ip["id"]`) are modelled by their ids. -/
structure RDevice where
  name : String
  device_type : Option Nat
  device_role : Option Nat
  site : Option RSiteRef
  status : Option String
  serial : Option String
  platform : Option Nat
  primary_ip : Option Nat
  id : Option Nat
  deriving DecidableEq, Repr

/-- The mocked inventory service: stored records, the next generated id, a
site-id-to-name table (the service resolves the site id sent in a create
payload), the log of issued calls, and failure injections for the three
API operations. -/
structure MockNb where
  records : List NbRec
  nextId : Nat
  sites : List (Nat × String)
  createCalls : List (List (String × PVal))
  updateCalls : List (Nat × List (String × Option PVal))
  failGet : Option NbErr
  failCreate : Option NbErr
  failUpdate : Option NbErr
  deriving DecidableEq, Repr

/-- Model of `nb.dcim.devices.get(name=..., site=...)`: first record matching the
(name, site-name) natural key, or a raised API error. -/
def MockNb.get (st : MockNb) (name : String) (siteName : Option String) :
    Except NbErr (Option NbRec) :=
  match st.failGet with
  | some e => .error e
  | none => .ok (st.records.find? fun r => r.name == name && r.siteName == siteName)

def payloadStr (p : List (String × PVal)) (k : String) : Option String :=
  match p.lookup k with
  | some (.pstr s) => some s
  | _ => none

def payloadNat (p : List (String × PVal)) (k : String) : Option Nat :=
  match p.lookup k with
  | some (.pnat n) => some n
  | _ => none

/-- The record the mocked service builds for a create payload: it assigns
the generated id `st.nextId` and resolves the site id to its name. -/
def MockNb.createdRec (st : MockNb) (p : List (String × PVal)) : NbRec :=
  { id := st.nextId,
    name := (payloadStr p "name").getD "",
    siteName := (payloadNat p "site").bind fun sid => st.sites.lookup sid,
    status := payloadStr p "status",
    serial := payloadStr p "serial",
    platform := payloadNat p "platform",
    primary_ip := payloadNat p "primary_ip" }

/-- Model of `nb.dcim.devices.create(**payload)`: stores a new record under the
generated id and logs the call. -/
def MockNb.create (st : MockNb) (p : List (String × PVal)) :
    Except NbErr (NbRec × MockNb) :=
  match st.failCreate with
  | some e => .error e
  | none =>
      .ok (st.createdRec p,
           { st with records := st.records ++ [st.createdRec p],
                     nextId := st.nextId + 1,
                     createCalls := st.createCalls ++ [p] })

/-- One field assignment performed by pynetbox's `Record.update(data)`:
the record attribute named by the key is set to the given value (`none`
clears it). -/
def NbRec.applyOne (r : NbRec) (kv : String × Option PVal) : NbRec :=
  match kv.1, kv.2 with
  | "status", some (.pstr s) => { r with status := some s }
  | "status", none => { r with status := none }
  | "serial", some (.pstr s) => { r with serial := some s }
  | "serial", none => { r with serial := none }
  | "platform", some (.pnat n) => { r with platform := some n }
  | "platform", none => { r with platform := none }
  | "primary_ip", some (.pnat n) => { r with primary_ip := some n }
  | "primary_ip", none => { r with primary_ip := none }
  | _, _ => r

def NbRec.applyUpd (r : NbRec) (u : List (String × Option PVal)) : NbRec :=
  u.foldl NbRec.applyOne r

/-- Model of `nb_device.update(update_data)`: applies the data to the record, saves
it, and logs the call. -/
def MockNb.update (st : MockNb) (r : NbRec) (u : List (String × Option PVal)) :
    Except NbErr (NbRec × MockNb) :=
  match st.failUpdate with
  | some e => .error e
  | none =>
      .ok (r.applyUpd u,
           { st with records := st.records.map fun x => if x.id == r.id then r.applyUpd u else x,
                     updateCalls := st.updateCalls ++ [(r.id, u)] })

/-- Python's `site_id or (self.site.id if self.site else None)` with `or`
truthiness (`None` and `0` are falsy). -/
def pyOrNat (a b : Option Nat) : Option Nat :=
  match a with
  | some n => if n = 0 then b else some n
  | none => b

/-- The `device_data` dict literal of `nb_create` (src/netbox_classes.py
lines 77-86), in insertion order, before the `is not None` filter. -/
def deviceDataEntries (d : RDevice) (site_id : Option Nat) :
    List (String × Option PVal) :=
  [("name", some (.pstr d.name)),
   ("device_type", d.device_type.map .pnat),
   ("role", d.device_role.map .pnat),
   ("site", (pyOrNat site_id (d.site.bind RSiteRef.id)).map .pnat),
   ("status", d.status.map .pstr),
   ("serial", d.serial.map .pstr),
   ("platform", d.platform.map .pnat),
   ("primary_ip", d.primary_ip.map .pnat)]

/-- The create payload: the dict comprehension
`{k: v for k, v in device_data.items() if v is not None}`
(src/netbox_classes.py line 88). -/
def deviceCreatePayload (d : RDevice) (site_id : Option Nat) :
    List (String × PVal) :=
  (deviceDataEntries d site_id).filterMap fun kv => kv.2.map fun v => (kv.1, v)

/-- The `update_data` diff of `nb_create` (src/netbox_classes.py lines
92-104): one entry per differing field among status, serial, platform id,
primary-IP id, valued with the local entity's value (possibly `None`). -/
def deviceUpdateData (d : RDevice) (r : NbRec) : List (String × Option PVal) :=
  (if r.status ≠ d.status then [("status", d.status.map PVal.pstr)] else []) ++
  (if r.serial ≠ d.serial then [("serial", d.serial.map PVal.pstr)] else []) ++
  (if r.platform ≠ d.platform then [("platform", d.platform.map PVal.pnat)] else []) ++
  (if r.primary_ip ≠ d.primary_ip then [("primary_ip", d.primary_ip.map PVal.pnat)] else [])

/-- The try-block of `NbDeviceMixin.nb_create` (src/netbox_classes.py
lines 72-118), statement by statement; an `.error` is an exception
escaping the try-block. -/
def nb_create_device_inner (d : RDevice) (site_id : Option Nat) (st : MockNb) :
    Except NbErr (NbRec × RDevice × MockNb) :=
  match st.get d.name (d.site.map RSiteRef.name) with
  | .error e => .error e
  | .ok none =>
      match st.create (deviceCreatePayload d site_id) with
      | .error e => .error e
      | .ok (r, st1) => .ok (r, d, st1)
  | .ok (some r) =>
      match (if deviceUpdateData d r = [] then Except.ok (r, st)
             else st.update r (deviceUpdateData d r)) with
      | .error e => .error e
      | .ok (r1, st1) =>
          .ok (r1,
               { d with status := r1.status, serial := r1.serial,
                        platform := r1.platform, primary_ip := r1.primary_ip,
                        id := some r1.id },
               st1)

/-- Model of `NbDeviceMixin.nb_create` with its exception boundary
(src/netbox_classes.py lines 119-127): every raised API error — request,
validation, or unexpected — is caught, logged, and resolved to `None`. -/
def nb_create_device (d : RDevice) (site_id : Option Nat) (st : MockNb) :
    Option NbRec × RDevice × MockNb :=
  match nb_create_device_inner d site_id st with
  | .ok (r, d1, st1) => (some r, d1, st1)
  | .error _ => (none, d, st)

/-- A remote site record held by the inventory service. -/
structure NbSiteRec where
  id : Nat
  name : String
  slug : Option String
  status : Option String
  tenant : Option Nat
  deriving DecidableEq, Repr

/-- The local Site entity as `NbSiteMixin.nb_create` reads and writes it. -/
structure RSite where
  name : String
  slug : String
  status : String
  description : String
  tenant : Option Nat
  tenant_group : Option Nat
  id : Option Nat
  deriving DecidableEq, Repr

/-- The mocked inventory service for sites, with failure injections. -/
structure MockSiteNb where
  records : List NbSiteRec
  nextId : Nat
  createCount : Nat
  failGet : Option NbErr
  failCreate : Option NbErr
  deriving DecidableEq, Repr

/-- Model of `nb.dcim.sites.get(name=...)`. -/
def MockSiteNb.get (st : MockSiteNb) (name : String) :
    Except NbErr (Option NbSiteRec) :=
  match st.failGet with
  | some e => .error e
  | none => .ok (st.records.find? fun r => r.name == name)

/-- The try-block of `NbSiteMixin.nb_create` (src/netbox_classes.py lines
33-52): create the site when absent, else copy the remote slug/status
(when set), tenant and id back into the local entity. -/
def nb_create_site_inner (s : RSite) (st : MockSiteNb) :
    Except NbErr (NbSiteRec × RSite × MockSiteNb) :=
  match st.get s.name with
  | .error e => .error e
  | .ok none =>
      match st.failCreate with
      | some e => .error e
      | none =>
          let r : NbSiteRec :=
            { id := st.nextId, name := s.name, slug := some s.slug,
              status := some s.status, tenant := s.tenant }
          .ok (r, s, { st with records := st.records ++ [r], nextId := st.nextId + 1,
                               createCount := st.createCount + 1 })
  | .ok (some r) =>
      let s1 : RSite :=
        { s with slug := r.slug.getD s.slug, status := r.status.getD s.status,
                 tenant := r.tenant, id := some r.id }
      .ok (r, s1, st)

/-- Model of `NbSiteMixin.nb_create` with its exception boundary
(src/netbox_classes.py lines 53-55): every exception is caught, printed,
and resolved to `None`. -/
def nb_create_site (s : RSite) (st : MockSiteNb) :
    Option NbSiteRec × RSite × MockSiteNb :=
  match nb_create_site_inner s st with
  | .ok (r, s1, st1) => (some r, s1, st1)
  | .error _ => (none, s, st)

/-- One payload entry when the field is non-null (string value). -/
def optEntryS (k : String) (o : Option String) : List (String × PVal) :=
  match o with
  | some s => [(k, .pstr s)]
  | none => []

/-- One payload entry when the field is non-null (id value). -/
def optEntryN (k : String) (o : Option Nat) : List (String × PVal) :=
  match o with
  | some n => [(k, .pnat n)]
  | none => []

/-- Spec-shaped create payload: the device name followed by exactly the
non-null fields among device_type id, role id, site id, status, serial,
platform id, primary-IP id. -/
def namePlusNonNullFields (d : RDevice) (sid : Option Nat) :
    List (String × PVal) :=
  ("name", .pstr d.name) ::
    (optEntryN "device_type" d.device_type ++ optEntryN "role" d.device_role ++
     optEntryN "site" (pyOrNat sid (d.site.bind RSiteRef.id)) ++
     optEntryS "status" d.status ++ optEntryS "serial" d.serial ++
     optEntryN "platform" d.platform ++ optEntryN "primary_ip" d.primary_ip)

/-- The field set the spec lists for the create payload (without the
device name). -/
def specCreateFields : List String :=
  ["device_type", "role", "site", "status", "serial", "platform", "primary_ip"]

/-- Helper: the create payload built by the source is exactly the device
name followed by the non-null fields among the seven spec-listed ones. -/
theorem deviceCreatePayload_eq (d : RDevice) (sid : Option Nat) :
    deviceCreatePayload d sid = namePlusNonNullFields d sid := by
  unfold deviceCreatePayload deviceDataEntries namePlusNonNullFields
  cases hsite : pyOrNat sid (d.site.bind RSiteRef.id) <;>
    cases d.device_type <;> cases d.device_role <;> cases d.status <;>
    cases d.serial <;> cases d.platform <;> cases d.primary_ip <;>
    simp [optEntryS, optEntryN]

/-- A Device `leaf1` in Site `lab-a` (site id 10), with device type and
role registered and an active status; no serial, platform or primary IP. -/
def c3dev : RDevice :=
  { name := "leaf1", device_type := some 1, device_role := some 2,
    site := some { name := "lab-a", id := some 10 }, status := some "active",
    serial := none, platform := none, primary_ip := none, id := none }

/-- A mocked inventory service with no existing record for the key
`("leaf1", "lab-a")`; the next generated id is 100. -/
def c3st : MockNb :=
  { records := [], nextId := 100, sites := [(10, "lab-a")],
    createCalls := [], updateCalls := [], failGet := none, failCreate := none,
    failUpdate := none }

/-- C3 (counterexample): reconciling `leaf1` against a mock with no record
for `("leaf1","lab-a")` issues exactly one create call, but the claim
fails on this input: the payload also contains the `name` field, which is
not among the seven spec-listed fields, and the local entity is returned
unchanged, so its id is `none` and NOT the id 100 the service generated. -/
theorem C3_create_counterexample :
    (nb_create_device c3dev (some 10) c3st).2.2.createCalls =
      [[("name", PVal.pstr "leaf1"), ("device_type", PVal.pnat 1),
        ("role", PVal.pnat 2), ("site", PVal.pnat 10),
        ("status", PVal.pstr "active")]] ∧
    (nb_create_device c3dev (some 10) c3st).2.1 = c3dev ∧
    ¬ ((nb_create_device c3dev (some 10) c3st).2.2.createCalls.length = 1 ∧
       (∀ p ∈ (nb_create_device c3dev (some 10) c3st).2.2.createCalls,
          ∀ kv ∈ p, kv.1 ∈ specCreateFields) ∧
       (nb_create_device c3dev (some 10) c3st).2.1.id = some c3st.nextId) := by
  exact ⟨by decide, by decide, fun h => absurd h.2.2 (by decide)⟩

/-- C3 (amended): for every device whose natural key has no existing
remote record (and no injected API failure), `nb_create` issues exactly
one create call whose payload is the device name together with exactly the
non-null fields among device_type id, role id, site id, status, serial,
platform id, primary-IP id; the service stores the new record under the
generated id `st.nextId` and returns it, but the local entity is left
unchanged — its id field is not set to the generated id. -/
theorem C3_create_amended (d : RDevice) (sid : Option Nat) (st : MockNb)
    (hg : st.failGet = none) (hc : st.failCreate = none)
    (hl : st.records.find?
        (fun r => r.name == d.name && r.siteName == (d.site.map RSiteRef.name)) = none) :
    nb_create_device d sid st =
      (some (st.createdRec (deviceCreatePayload d sid)), d,
       { st with records := st.records ++ [st.createdRec (deviceCreatePayload d sid)],
                 nextId := st.nextId + 1,
                 createCalls := st.createCalls ++ [deviceCreatePayload d sid] }) ∧
    (st.createdRec (deviceCreatePayload d sid)).id = st.nextId ∧
    deviceCreatePayload d sid = namePlusNonNullFields d sid := by
  refine ⟨?_, rfl, deviceCreatePayload_eq d sid⟩
  simp [nb_create_device, nb_create_device_inner, MockNb.get, MockNb.create, hg, hc, hl]

/-- C3 (witness for the amended theorem): the concrete `leaf1` / `lab-a`
scenario from the spec's testable property. -/
theorem C3_create_amended_witness :
    nb_create_device c3dev (some 10) c3st =
      (some (c3st.createdRec (deviceCreatePayload c3dev (some 10))), c3dev,
       { c3st with
           records := c3st.records ++ [c3st.createdRec (deviceCreatePayload c3dev (some 10))],
           nextId := c3st.nextId + 1,
           createCalls := c3st.createCalls ++ [deviceCreatePayload c3dev (some 10)] }) ∧
    (c3st.createdRec (deviceCreatePayload c3dev (some 10))).id = c3st.nextId ∧
    deviceCreatePayload c3dev (some 10) = namePlusNonNullFields c3dev (some 10) :=
  C3_create_amended c3dev (some 10) c3st rfl rfl (by decide)

/-- Helper: membership in a conditional singleton list forces equality. -/
theorem mem_if_singleton {α : Type} {c : Prop} [Decidable c] {x kv : α}
    (h : kv ∈ (if c then [x] else [])) : kv = x := by
  by_cases hc : c
  · simpa [hc] using h
  · simp [hc] at h

/-- The remote record as it stands after the reconciliation of `d` against
existing record `r`: unchanged when the diff is empty, else with the
update applied (pynetbox's `Record.update` mutates the record). -/
def reconciledRec (d : RDevice) (r : NbRec) : NbRec :=
  if deviceUpdateData d r = [] then r else r.applyUpd (deviceUpdateData d r)

/-- C4: for every device whose natural key matches an existing remote
record, `nb_create` issues no create call; the diff is limited to the
fields status, serial, platform, primary_ip; an update is issued only when
the diff is non-empty (and when only status differs, it is exactly one
update containing only the status field); and the remote record's status,
serial, platform id, primary-IP id and id are copied back into the local
entity. -/
theorem C4_update_path (d : RDevice) (sid : Option Nat) (st : MockNb) (r : NbRec)
    (hg : MockNb.get st d.name (d.site.map RSiteRef.name) = Except.ok (some r))
    (hu : st.failUpdate = none) :
    ((nb_create_device d sid st).2.2.createCalls = st.createCalls) ∧
    (∀ kv ∈ deviceUpdateData d r, kv.1 ∈ ["status", "serial", "platform", "primary_ip"]) ∧
    ((nb_create_device d sid st).2.2.updateCalls =
        if deviceUpdateData d r = [] then st.updateCalls
        else st.updateCalls ++ [(r.id, deviceUpdateData d r)]) ∧
    ((nb_create_device d sid st).2.1 =
        { d with status := (reconciledRec d r).status,
                 serial := (reconciledRec d r).serial,
                 platform := (reconciledRec d r).platform,
                 primary_ip := (reconciledRec d r).primary_ip,
                 id := some (reconciledRec d r).id }) ∧
    (r.serial = d.serial → r.platform = d.platform → r.primary_ip = d.primary_ip →
       r.status ≠ d.status →
       deviceUpdateData d r = [("status", d.status.map PVal.pstr)] ∧
       (nb_create_device d sid st).2.2.updateCalls =
         st.updateCalls ++ [(r.id, [("status", d.status.map PVal.pstr)])]) := by
  have hmain : nb_create_device d sid st =
      (some (reconciledRec d r),
       { d with status := (reconciledRec d r).status,
                serial := (reconciledRec d r).serial,
                platform := (reconciledRec d r).platform,
                primary_ip := (reconciledRec d r).primary_ip,
                id := some (reconciledRec d r).id },
       if deviceUpdateData d r = [] then st
       else { st with
                records := st.records.map
                  fun x => if x.id == r.id then r.applyUpd (deviceUpdateData d r) else x,
                updateCalls := st.updateCalls ++ [(r.id, deviceUpdateData d r)] }) := by
    unfold nb_create_device nb_create_device_inner
    rw [hg]
    by_cases hupd : deviceUpdateData d r = [] <;>
      simp [hupd, MockNb.update, hu, reconciledRec]
  have hsub : ∀ kv ∈ deviceUpdateData d r,
      kv.1 ∈ ["status", "serial", "platform", "primary_ip"] := by
    intro kv hkv
    unfold deviceUpdateData at hkv
    rcases List.mem_append.1 hkv with h | h
    · rcases List.mem_append.1 h with h | h
      · rcases List.mem_append.1 h with h | h
        · obtain rfl := mem_if_singleton h; simp
        · obtain rfl := mem_if_singleton h; simp
      · obtain rfl := mem_if_singleton h; simp
    · obtain rfl := mem_if_singleton h; simp
  refine ⟨?_, hsub, ?_, ?_, ?_⟩
  · rw [hmain]
    by_cases hupd : deviceUpdateData d r = [] <;> simp [hupd]
  · rw [hmain]
    by_cases hupd : deviceUpdateData d r = [] <;> simp [hupd]
  · rw [hmain]
  · intro hs1 hs2 hs3 hs4
    have hdiff : deviceUpdateData d r = [("status", d.status.map PVal.pstr)] := by
      unfold deviceUpdateData
      simp [hs1, hs2, hs3, hs4]
    refine ⟨hdiff, ?_⟩
    rw [hmain]
    simp [hdiff]

/-- The local `leaf1` entity for the C4 scenario: active status, all other
diffable fields unset. -/
def c4dev : RDevice :=
  { name := "leaf1", device_type := some 1, device_role := some 2,
    site := some { name := "lab-a", id := some 10 }, status := some "active",
    serial := none, platform := none, primary_ip := none, id := none }

/-- An existing remote record for `("leaf1","lab-a")` whose status differs
from the local entity's, with all other diffable fields matching. -/
def c4rec : NbRec :=
  { id := 7, name := "leaf1", siteName := some "lab-a", status := some "offline",
    serial := none, platform := none, primary_ip := none }

/-- A mocked inventory service holding exactly `c4rec`. -/
def c4st : MockNb :=
  { records := [c4rec], nextId := 100, sites := [(10, "lab-a")],
    createCalls := [], updateCalls := [], failGet := none, failCreate := none,
    failUpdate := none }

/-- C4 (witness): with only `status` differing, reconciling issues exactly
one update call containing only the status field, no create call, and
copies the record's id (7) and the post-update status back into the local
entity. -/
theorem C4_update_path_witness :
    (nb_create_device c4dev none c4st).2.2.updateCalls =
      [(7, [("status", some (PVal.pstr "active"))])] ∧
    (nb_create_device c4dev none c4st).2.2.createCalls = [] ∧
    (nb_create_device c4dev none c4st).2.1.id = some 7 ∧
    (nb_create_device c4dev none c4st).2.1.status = some "active" := by
  have h := C4_update_path c4dev none c4st c4rec rfl rfl
  have h5 := h.2.2.2.2 rfl rfl rfl (by decide)
  refine ⟨?_, ?_, ?_, ?_⟩
  · rw [h5.2]; rfl
  · rw [h.1]; rfl
  · rw [h.2.2.2.1]; rfl
  · rw [h.2.2.2.1]; rfl

/-- C5: every inventory API failure — request error, validation error, or
any other unexpected exception, injected at the lookup, the create, or the
update — is caught at the `nb_create` boundary and resolved to `None` with
the local entity untouched, for the Device mixin and the Site mixin
alike. -/
theorem C5_reconciler_failure_boundary :
    (∀ (d : RDevice) (sid : Option Nat) (st : MockNb) (e : NbErr),
        st.failGet = some e → nb_create_device d sid st = (none, d, st)) ∧
    (∀ (d : RDevice) (sid : Option Nat) (st : MockNb) (e : NbErr),
        st.failCreate = some e →
        MockNb.get st d.name (d.site.map RSiteRef.name) = .ok none →
        nb_create_device d sid st = (none, d, st)) ∧
    (∀ (d : RDevice) (sid : Option Nat) (st : MockNb) (e : NbErr) (r : NbRec),
        st.failUpdate = some e →
        MockNb.get st d.name (d.site.map RSiteRef.name) = .ok (some r) →
        deviceUpdateData d r ≠ [] →
        nb_create_device d sid st = (none, d, st)) ∧
    (∀ (s : RSite) (st : MockSiteNb) (e : NbErr),
        st.failGet = some e → nb_create_site s st = (none, s, st)) ∧
    (∀ (s : RSite) (st : MockSiteNb) (e : NbErr),
        st.failCreate = some e → MockSiteNb.get st s.name = .ok none →
        nb_create_site s st = (none, s, st)) := by
  refine ⟨fun d sid st e he => ?_, fun d sid st e he hl => ?_,
          fun d sid st e r he hl hne => ?_, fun s st e he => ?_,
          fun s st e he hl => ?_⟩
  · simp [nb_create_device, nb_create_device_inner, MockNb.get, he]
  · simp [nb_create_device, nb_create_device_inner, hl, MockNb.create, he]
  · simp [nb_create_device, nb_create_device_inner, hl, MockNb.update, he, hne]
  · simp [nb_create_site, nb_create_site_inner, MockSiteNb.get, he]
  · simp [nb_create_site, nb_create_site_inner, hl, he]

/-- C5 (witness): a request error at the lookup, a validation error at the
create, and an unexpected error at the update each resolve to `None`, as
does a failure in the Site mixin. -/
theorem C5_reconciler_failure_boundary_witness :
    nb_create_device c3dev (some 10) { c3st with failGet := some .requestError } =
      (none, c3dev, { c3st with failGet := some .requestError }) ∧
    nb_create_device c3dev (some 10) { c3st with failCreate := some .validationError } =
      (none, c3dev, { c3st with failCreate := some .validationError }) ∧
    nb_create_device c4dev none { c4st with failUpdate := some .unexpected } =
      (none, c4dev, { c4st with failUpdate := some .unexpected }) ∧
    nb_create_site
        { name := "lab-a", slug := "lab-a", status := "active",
          description := "d", tenant := none, tenant_group := none, id := none }
        { records := [], nextId := 5, createCount := 0,
          failGet := some .unexpected, failCreate := none } =
      (none,
       { name := "lab-a", slug := "lab-a", status := "active",
         description := "d", tenant := none, tenant_group := none, id := none },
       { records := [], nextId := 5, createCount := 0,
         failGet := some .unexpected, failCreate := none }) := by
  have h := C5_reconciler_failure_boundary
  exact ⟨h.1 c3dev (some 10) _ .requestError rfl,
         h.2.1 c3dev (some 10) _ .validationError rfl rfl,
         h.2.2.1 c4dev none _ .unexpected c4rec rfl rfl (by decide),
         h.2.2.2.1 _ _ .unexpected rfl⟩

end AutoNetOps
